import Mathlib

/-
Verification development for the maplibre handle library.

The embedding below follows the TypeScript sources:
  - SelectionManager (selection state, bounds, events),
  - HandleManager (handle store, drag state machine, constraint resolution),
  - ToolManager and BaseTool (tool registry and activation state machine),
  - SelectionTool.createHandlesForSelection (handle regeneration from bounds).

JavaScript numbers are modelled as rationals; JavaScript Map objects are
modelled as association lists that preserve insertion order, with overwrite
in place on an existing key, exactly as Map.set behaves. The external
geometry library (turf) is out of scope for the library itself and is
modelled as an abstract record of pure functions.
-/

namespace MaplibreSpec

/-! Association-list model of a JavaScript Map (insertion order preserved,
set on an existing key keeps its position, delete removes the entry). -/

def mapSet {β : Type} (k : String) (v : β) : List (String × β) → List (String × β)
  | [] => [(k, v)]
  | (k₁, v₁) :: rest => if k₁ = k then (k, v) :: rest else (k₁, v₁) :: mapSet k v rest

def lookupKey {β : Type} (k : String) : List (String × β) → Option β
  | [] => none
  | (k₁, v₁) :: rest => if k₁ = k then some v₁ else lookupKey k rest

def eraseKey {β : Type} (k : String) : List (String × β) → List (String × β)
  | [] => []
  | (k₁, v₁) :: rest => if k₁ = k then rest else (k₁, v₁) :: eraseKey k rest

def keyMem {β : Type} (k : String) (l : List (String × β)) : Bool :=
  (lookupKey k l).isSome

/-- Model of HandleManager.updateHandle-style update: write the value only
when the key is already present, otherwise leave the map unchanged. -/
def mapUpdate {β : Type} (k : String) (v : β) (l : List (String × β)) : List (String × β) :=
  match lookupKey k l with
  | none => l
  | some _ => mapSet k v l

/-! Geographic positions: longitude and latitude as rationals. -/

structure Position where
  lon : ℚ
  lat : ℚ
deriving DecidableEq

/-! Data model of the selection component (src/lib/selection/types.ts). -/

inductive GeomKind where
  | point
  | lineString
  | multiLineString
  | polygon
  | multiPolygon
  | other
deriving DecidableEq

/-- GeoJSON feature as far as the selection logic inspects it: an optional
feature id, a geometry kind, and the coordinate payload. -/
structure Feature where
  fid : Option String
  geomType : GeomKind
  coords : List (ℚ × ℚ)
deriving DecidableEq

structure Bbox where
  minX : ℚ
  minY : ℚ
  maxX : ℚ
  maxY : ℚ
deriving DecidableEq

structure SelectedFeature where
  id : String
  feature : Feature
  sourceId : String
  layerId : String
  selected : Bool
  isCurrentSelection : Bool
deriving DecidableEq

structure SelectionBounds where
  bbox : Bbox
  center : Position
  area : ℚ
  perimeter : ℚ
deriving DecidableEq

inductive SelectionEventType where
  | select
  | deselect
  | clear
  | change
deriving DecidableEq

structure SelectionEvent where
  type : SelectionEventType
  selected : List SelectedFeature
  bounds : Option SelectionBounds
deriving DecidableEq

/-- Abstract surface of the external geometry library (turf) as consumed by
calculateSelectionBounds: bbox and center of a feature collection, polygon
area, polygon boundary length (polygonToLine composed with length), and
line length. The selection logic is parametric in these. -/
structure GeoLib where
  bbox : List Feature → Bbox
  center : List Feature → Position
  area : Feature → ℚ
  boundaryLength : Feature → ℚ
  lineLength : Feature → ℚ

def isPolygonal (f : Feature) : Bool :=
  match f.geomType with
  | GeomKind.polygon => true
  | GeomKind.multiPolygon => true
  | _ => false

def isLinear (f : Feature) : Bool :=
  match f.geomType with
  | GeomKind.lineString => true
  | GeomKind.multiLineString => true
  | _ => false

/-- Accumulation of areas over polygonal members, as in the forEach loop of
SelectionManager.calculateSelectionBounds. -/
def sumAreas (geo : GeoLib) (fs : List Feature) : ℚ :=
  fs.foldl (fun acc f => if isPolygonal f then acc + geo.area f else acc) 0

/-- Accumulation of perimeters: boundary length for polygonal members and
line length for line members, other members contribute nothing. -/
def sumPerimeters (geo : GeoLib) (fs : List Feature) : ℚ :=
  fs.foldl
    (fun acc f =>
      if isPolygonal f then acc + geo.boundaryLength f
      else if isLinear f then acc + geo.lineLength f
      else acc)
    0

/-- SelectionManager state: the selected-feature map and the cached bounds. -/
structure SelState where
  selectedFeatures : List (String × SelectedFeature)
  selectionBounds : Option SelectionBounds
deriving DecidableEq

def selInit : SelState := { selectedFeatures := [], selectionBounds := none }

/-- SelectionManager.calculateSelectionBounds: null when the selection set is
empty, otherwise bounds computed over all selected features. -/
def calculateSelectionBounds (geo : GeoLib) (sel : List (String × SelectedFeature)) :
    Option SelectionBounds :=
  match sel with
  | [] => none
  | _ :: _ =>
    let feats := sel.map (fun p => p.2.feature)
    some
      { bbox := geo.bbox feats
        center := geo.center feats
        area := sumAreas geo feats
        perimeter := sumPerimeters geo feats }

/-- Fallback id generation of SelectionManager.select: the feature id when
present and truthy, otherwise the freshly generated random id. -/
def featureId (f : Feature) (fresh : String) : String :=
  match f.fid with
  | some s => if s = "" then fresh else s
  | none => fresh

/-- The forEach loop in SelectionManager.select that flips
isCurrentSelection off for every existing entry. -/
def clearCurrent (l : List (String × SelectedFeature)) : List (String × SelectedFeature) :=
  l.map (fun p => (p.1, { p.2 with isCurrentSelection := false }))

/-- SelectionManager.select: optionally clear the current flags, insert or
overwrite the entry, recompute bounds, emit the select event. -/
def select (geo : GeoLib) (s : SelState) (f : Feature) (srcId layId : String)
    (setAsCurrent : Bool) (fresh : String) : SelState × List SelectionEvent :=
  let fid := featureId f fresh
  let base := if setAsCurrent then clearCurrent s.selectedFeatures else s.selectedFeatures
  let sf : SelectedFeature :=
    { id := fid, feature := f, sourceId := srcId, layerId := layId
      selected := true, isCurrentSelection := setAsCurrent }
  let sel2 := mapSet fid sf base
  let b := calculateSelectionBounds geo sel2
  ({ selectedFeatures := sel2, selectionBounds := b },
   [{ type := SelectionEventType.select, selected := sel2.map (fun p => p.2), bounds := b }])

/-- SelectionManager.deselect: remove by id; only when something was removed,
recompute bounds and emit the deselect event. -/
def deselect (geo : GeoLib) (s : SelState) (fid : String) :
    SelState × Bool × List SelectionEvent :=
  if keyMem fid s.selectedFeatures then
    let sel2 := eraseKey fid s.selectedFeatures
    let b := calculateSelectionBounds geo sel2
    ({ selectedFeatures := sel2, selectionBounds := b }, true,
     [{ type := SelectionEventType.deselect, selected := sel2.map (fun p => p.2), bounds := b }])
  else (s, false, [])

/-- SelectionManager.clearSelection: empty the set, null the bounds, emit the
clear event unconditionally; the prior state is discarded entirely. -/
def clearSelection (_s : SelState) : SelState × List SelectionEvent :=
  ({ selectedFeatures := [], selectionBounds := none },
   [{ type := SelectionEventType.clear, selected := [], bounds := none }])

/-- SelectionManager.emitEvent: deliver to the listeners of the given type in
registration order, then, for any type other than change, deliver the same
payload with the type overwritten to change to the change listeners. The
listener table maps each event type to listener identifiers in registration
order. -/
def emitEvent (ls : SelectionEventType → List Nat) (t : SelectionEventType)
    (ev : SelectionEvent) : List (Nat × SelectionEvent) :=
  (ls t).map (fun l => (l, ev)) ++
    (if t ≠ SelectionEventType.change then
      (ls SelectionEventType.change).map (fun l => (l, { ev with type := SelectionEventType.change }))
    else [])

/-! Operation sequences over the selection manager. -/

inductive SelOp where
  | sel (f : Feature) (srcId layId : String) (setAsCurrent : Bool) (fresh : String)
  | desel (fid : String)
  | clear
deriving DecidableEq

def selStep (geo : GeoLib) (s : SelState) : SelOp → SelState
  | SelOp.sel f srcId layId cur fresh => (select geo s f srcId layId cur fresh).1
  | SelOp.desel fid => (deselect geo s fid).1
  | SelOp.clear => (clearSelection s).1

def selRun (geo : GeoLib) (ops : List SelOp) : SelState :=
  ops.foldl (selStep geo) selInit

/-- Number of entries whose isCurrentSelection flag is set. -/
def currentCount (l : List (String × SelectedFeature)) : Nat :=
  (l.filter (fun p => p.2.isCurrentSelection)).length

/-! Data model of the handle component (src/lib/types.ts). -/

inductive Axis where
  | x
  | y
deriving DecidableEq

/-- Handle constraints; a missing optional field of the TypeScript object is
false respectively none here. -/
structure Constraints where
  snapToGrid : Bool
  lockAxis : Option Axis
  proportional : Bool
deriving DecidableEq

inductive HandleType where
  | resize
  | rotate
  | move
  | curve
  | label
  | snap
deriving DecidableEq

inductive HandleShape where
  | square
  | circle
  | diamond
  | triangle
deriving DecidableEq

structure Handle where
  id : String
  type : HandleType
  shape : HandleShape
  position : Position
  color : String
  size : ℚ
  cursor : String
  visible : Bool
  draggable : Bool
  constraints : Option Constraints
deriving DecidableEq

inductive HandleEventType where
  | dragstart
  | drag
  | dragend
  | click
  | mouseover
  | mouseout
deriving DecidableEq

structure HandleEvent where
  type : HandleEventType
  handle : Handle
  position : Position
deriving DecidableEq

/-- Drag session captured on mousedown over a draggable handle. -/
structure DragState where
  handle : Handle
  initialPosition : Position
  currentPosition : Position
deriving DecidableEq

/-- HandleManager state: the handle map, the active-handle id and the single
drag-session slot. -/
structure HMState where
  handles : List (String × Handle)
  activeHandle : Option String
  dragState : Option DragState
deriving DecidableEq

def hmInit : HMState := { handles := [], activeHandle := none, dragState := none }

/-- Grid quantum of the snap-to-grid constraint (0.001 degrees). -/
def gridSize : ℚ := 1 / 1000

/-- JavaScript Math.round: round to the nearest integer, halves toward
positive infinity. -/
def jsRound (q : ℚ) : ℤ := ⌊q + 1 / 2⌋

/-- One coordinate of the snap-to-grid step:
Math.round(value / gridSize) * gridSize. -/
def snapQ (q : ℚ) : ℚ := (jsRound (q / gridSize) : ℚ) * gridSize

/-- HandleManager.applyConstraints: axis lock first (reading the initial
position from the current drag session), then grid snap of both
coordinates. -/
def applyConstraints (ds : Option DragState) (h : Handle) (newPosition : Position) : Position :=
  match h.constraints with
  | none => newPosition
  | some c =>
    let r1 :=
      match c.lockAxis with
      | none => newPosition
      | some ax =>
        match ds with
        | none => newPosition
        | some d =>
          match ax with
          | Axis.x => { newPosition with lon := d.initialPosition.lon }
          | Axis.y => { newPosition with lat := d.initialPosition.lat }
    if c.snapToGrid then { lon := snapQ r1.lon, lat := snapQ r1.lat } else r1

/-- HandleManager.addHandle (the map insertion; source re-rendering is an
external side effect). -/
def addHandleHM (st : HMState) (h : Handle) : HMState :=
  { st with handles := mapSet h.id h st.handles }

/-- The mousemove handler of HandleManager.setupEventHandlers: when a drag
session exists, constrain the pointer position, write it into the dragged
handle and the handle map, update the session, and emit a drag event. -/
def onMouseMove (st : HMState) (pos : Position) : HMState × List HandleEvent :=
  match st.dragState with
  | none => (st, [])
  | some ds =>
    let h := ds.handle
    let p := applyConstraints (some ds) h pos
    let h2 := { h with position := p }
    let ds2 : DragState := { handle := h2, initialPosition := ds.initialPosition, currentPosition := p }
    let st2 : HMState := { st with handles := mapUpdate h.id h2 st.handles, dragState := some ds2 }
    (st2, [{ type := HandleEventType.drag, handle := h2, position := p }])

/-- The mousedown handler of HandleManager.setupEventHandlers: when the event
carries a feature whose id resolves to a draggable handle, capture a fresh
drag session for it and emit dragstart. There is no guard on an existing
drag session. The parameter is the handle id found on the hit feature, if
any. -/
def onMouseDown (st : HMState) (hit : Option String) : HMState × List HandleEvent :=
  match hit with
  | none => (st, [])
  | some hid =>
    match lookupKey hid st.handles with
    | none => (st, [])
    | some h =>
      if h.draggable then
        ({ st with
            activeHandle := some hid
            dragState := some { handle := h, initialPosition := h.position, currentPosition := h.position } },
         [{ type := HandleEventType.dragstart, handle := h, position := h.position }])
      else (st, [])

/-- The mouseup handler of HandleManager.setupEventHandlers: when a drag
session exists, emit dragend and discard the session. -/
def onMouseUp (st : HMState) : HMState × List HandleEvent :=
  match st.dragState with
  | none => (st, [])
  | some ds =>
    ({ st with dragState := none, activeHandle := none },
     [{ type := HandleEventType.dragend, handle := ds.handle, position := ds.handle.position }])

/-- Fold a sequence of mousemove pointer positions through the drag state
machine. -/
def runMoves (st : HMState) (ps : List Position) : HMState :=
  ps.foldl (fun s p => (onMouseMove s p).1) st

/-- HandleManager.getColorForType. -/
def colorForType (t : HandleType) : String :=
  match t with
  | HandleType.resize => "#ff5733"
  | HandleType.rotate => "#33bbff"
  | HandleType.move => "#33ff57"
  | HandleType.curve => "#b533ff"
  | HandleType.label => "#ffbb33"
  | HandleType.snap => "#ff33bb"

/-- HandleManager.getCursorForType. -/
def cursorForType (t : HandleType) : String :=
  match t with
  | HandleType.resize => "nwse-resize"
  | HandleType.rotate => "crosshair"
  | HandleType.move => "move"
  | HandleType.curve => "pointer"
  | HandleType.label => "text"
  | HandleType.snap => "cell"

/-- HandleManager.getConstraintsForType. -/
def constraintsForType (t : HandleType) : Constraints :=
  match t with
  | HandleType.resize => { snapToGrid := false, lockAxis := none, proportional := true }
  | HandleType.snap => { snapToGrid := true, lockAxis := none, proportional := false }
  | _ => { snapToGrid := false, lockAxis := none, proportional := false }

/-- HandleManager.createHandle with the generated id passed in explicitly
(the source generates it with Math.random) and the position always given
(the map-center default is an external lookup). -/
def mkHandle (idStr : String) (t : HandleType) (sh : HandleShape) (pos : Position) : Handle :=
  { id := idStr, type := t, shape := sh, position := pos
    color := colorForType t, size := 1, cursor := cursorForType t
    visible := true, draggable := true, constraints := some (constraintsForType t) }

/-! Tool registry and tool lifecycle
(src/lib/tools/BaseTool.ts: BaseTool and ToolManager). -/

inductive ToolState where
  | inactive
  | active
  | pending
  | completed
deriving DecidableEq

/-- The per-tool data the activation state machine touches: the tool id, its
lifecycle state and the handles the tool currently owns. -/
structure ToolData where
  id : String
  state : ToolState
  handles : List String
deriving DecidableEq

inductive ToolEventKind where
  | activate
  | deactivate
  | start
  | update
  | complete
  | cancel
deriving DecidableEq

structure ToolEvent where
  kind : ToolEventKind
  toolId : String
  state : ToolState
deriving DecidableEq

/-- BaseTool.activate: a no-op unless the tool is inactive; otherwise set the
state to active and emit the activate event. -/
def toolActivate (t : ToolData) : ToolData × List ToolEvent :=
  if t.state ≠ ToolState.inactive then (t, [])
  else
    let t2 := { t with state := ToolState.active }
    (t2, [{ kind := ToolEventKind.activate, toolId := t.id, state := ToolState.active }])

/-- BaseTool.deactivate: a no-op when the tool is inactive; otherwise clear
the handles owned by the tool, set the state to inactive and emit the
deactivate event. -/
def toolDeactivate (t : ToolData) : ToolData × List ToolEvent :=
  if t.state = ToolState.inactive then (t, [])
  else
    let t2 := { t with handles := [], state := ToolState.inactive }
    (t2, [{ kind := ToolEventKind.deactivate, toolId := t.id, state := ToolState.inactive }])

/-- ToolManager state: the registered-tool map and the single active-tool
slot (the id of the active tool). -/
structure TMState where
  tools : List (String × ToolData)
  activeTool : Option String
deriving DecidableEq

def tmInit : TMState := { tools := [], activeTool := none }

/-- ToolManager.registerTool (the map insertion; event forwarding is modelled
at the trace level). -/
def tmRegister (s : TMState) (t : ToolData) : TMState :=
  { s with tools := mapSet t.id t s.tools }

/-- ToolManager.activateTool: null and no state change for an unknown id;
otherwise deactivate the currently active tool if there is one, then
activate the requested tool (re-read after the deactivation, since in the
source both names alias the same object when the ids coincide) and store it
in the active slot. Returns the new state, the returned tool id, and the
tool events emitted in order. -/
def tmActivateTool (s : TMState) (toolId : String) : TMState × Option String × List ToolEvent :=
  match lookupKey toolId s.tools with
  | none => (s, none, [])
  | some _ =>
    let step1 : TMState × List ToolEvent :=
      match s.activeTool with
      | none => (s, [])
      | some aid =>
        match lookupKey aid s.tools with
        | none => (s, [])
        | some t =>
          let r := toolDeactivate t
          ({ s with tools := mapUpdate aid r.1 s.tools }, r.2)
    match lookupKey toolId step1.1.tools with
    | none => (step1.1, none, step1.2)
    | some t1 =>
      let r2 := toolActivate t1
      ({ tools := mapUpdate toolId r2.1 step1.1.tools, activeTool := some toolId },
       some toolId, step1.2 ++ r2.2)

/-! Handle regeneration from selection bounds
(src/lib/tools/selection-tool.ts: SelectionTool.createHandlesForSelection). -/

/-- The handles created by one run of createHandlesForSelection, split the
way the tool stores them. -/
structure CreatedHandles where
  cornerHandles : List Handle
  edgeHandles : List Handle
  centerHandle : Option Handle
deriving DecidableEq

/-- SelectionTool.createHandlesForSelection: nothing when the bounds are
null; otherwise four corner resize squares (NW, NE, SE, SW), four midpoint
resize circles (N, E, S, W); the center move handle is commented out in the
source. Generated handle ids are supplied by the id source. -/
def createHandlesForSelection (gen : Nat → String) (bounds : Option SelectionBounds) :
    CreatedHandles :=
  match bounds with
  | none => { cornerHandles := [], edgeHandles := [], centerHandle := none }
  | some b =>
    let nw : Position := { lon := b.bbox.minX, lat := b.bbox.maxY }
    let ne : Position := { lon := b.bbox.maxX, lat := b.bbox.maxY }
    let se : Position := { lon := b.bbox.maxX, lat := b.bbox.minY }
    let sw : Position := { lon := b.bbox.minX, lat := b.bbox.minY }
    let n : Position := { lon := (b.bbox.minX + b.bbox.maxX) / 2, lat := b.bbox.maxY }
    let e : Position := { lon := b.bbox.maxX, lat := (b.bbox.minY + b.bbox.maxY) / 2 }
    let s : Position := { lon := (b.bbox.minX + b.bbox.maxX) / 2, lat := b.bbox.minY }
    let w : Position := { lon := b.bbox.minX, lat := (b.bbox.minY + b.bbox.maxY) / 2 }
    { cornerHandles :=
        [mkHandle (gen 0) HandleType.resize HandleShape.square nw,
         mkHandle (gen 1) HandleType.resize HandleShape.square ne,
         mkHandle (gen 2) HandleType.resize HandleShape.square se,
         mkHandle (gen 3) HandleType.resize HandleShape.square sw]
      edgeHandles :=
        [mkHandle (gen 4) HandleType.resize HandleShape.circle n,
         mkHandle (gen 5) HandleType.resize HandleShape.circle e,
         mkHandle (gen 6) HandleType.resize HandleShape.circle s,
         mkHandle (gen 7) HandleType.resize HandleShape.circle w]
      centerHandle := none }

/-- Reading the four corner handle positions back into a bbox, following the
round-trip wording of the specification: the NW corner supplies minX and
maxY, the SE corner supplies maxX and minY. -/
def specReadCornersBbox (corners : List Handle) : Option Bbox :=
  match corners with
  | [a, _b, c, _d] =>
    some { minX := a.position.lon, minY := c.position.lat
           maxX := c.position.lon, maxY := a.position.lat }
  | _ => none

/-! Helper lemmas. -/

theorem foldlInv {α σ : Type} (P : σ → Prop) (step : σ → α → σ)
    (hstep : ∀ s a, P s → P (step s a)) :
    ∀ (l : List α) (s : σ), P s → P (l.foldl step s) := by
  intro l
  induction l with
  | nil => intro s hs; simpa using hs
  | cons a l ih => intro s hs; simpa using ih (step s a) (hstep s a hs)

theorem filter_clearCurrent (l : List (String × SelectedFeature)) :
    (clearCurrent l).filter (fun p => p.2.isCurrentSelection) = [] := by
  induction l with
  | nil => rfl
  | cons a l ih => simpa [clearCurrent, List.filter_cons] using ih

theorem filter_mapSet_clearCurrent (k : String) (v : SelectedFeature)
    (hv : v.isCurrentSelection = true) (l : List (String × SelectedFeature)) :
    (mapSet k v (clearCurrent l)).filter (fun p => p.2.isCurrentSelection) = [(k, v)] := by
  induction l with
  | nil => simp [mapSet, clearCurrent, List.filter_cons, hv]
  | cons a l ih =>
    by_cases hk : a.1 = k
    · have e : mapSet k v (clearCurrent (a :: l)) = (k, v) :: clearCurrent l := by
        simp [clearCurrent, mapSet, hk]
      rw [e, List.filter_cons]
      simp only [hv, if_pos trivial, filter_clearCurrent]
    · have e : mapSet k v (clearCurrent (a :: l)) =
          (a.1, { a.2 with isCurrentSelection := false }) :: mapSet k v (clearCurrent l) := by
        simp [clearCurrent, mapSet, hk]
      rw [e, List.filter_cons]
      simpa using ih

theorem currentCount_cons (a : String × SelectedFeature) (l : List (String × SelectedFeature)) :
    currentCount (a :: l) = (if a.2.isCurrentSelection then 1 else 0) + currentCount l := by
  by_cases h : a.2.isCurrentSelection
  · simp only [currentCount, List.filter_cons, h, if_pos trivial, List.length_cons]
    omega
  · simp [currentCount, List.filter_cons, h]

theorem currentCount_mapSet_le (k : String) (v : SelectedFeature)
    (hv : v.isCurrentSelection = false) (l : List (String × SelectedFeature)) :
    currentCount (mapSet k v l) ≤ currentCount l := by
  induction l with
  | nil => simp [mapSet, currentCount, List.filter_cons, hv]
  | cons a l ih =>
    by_cases hk : a.1 = k
    · have e : mapSet k v (a :: l) = (k, v) :: l := by simp [mapSet, hk]
      rw [e, currentCount_cons, currentCount_cons]
      simp only [hv, Bool.false_eq_true, if_false, Nat.zero_add]
      exact Nat.le_add_left _ _
    · have e : mapSet k v (a :: l) = (a.1, a.2) :: mapSet k v l := by simp [mapSet, hk]
      rw [e, currentCount_cons, currentCount_cons]
      exact Nat.add_le_add_left ih _

theorem currentCount_eraseKey_le (k : String) (l : List (String × SelectedFeature)) :
    currentCount (eraseKey k l) ≤ currentCount l := by
  induction l with
  | nil => simp [eraseKey]
  | cons a l ih =>
    by_cases hk : a.1 = k
    · have e : eraseKey k (a :: l) = l := by simp [eraseKey, hk]
      rw [e, currentCount_cons]
      exact Nat.le_add_left _ _
    · have e : eraseKey k (a :: l) = (a.1, a.2) :: eraseKey k l := by simp [eraseKey, hk]
      rw [e, currentCount_cons, currentCount_cons]
      exact Nat.add_le_add_left ih _

theorem currentCount_select_le (geo : GeoLib) (s : SelState) (f : Feature)
    (srcId layId : String) (cur : Bool) (fresh : String)
    (h : currentCount s.selectedFeatures ≤ 1) :
    currentCount (select geo s f srcId layId cur fresh).1.selectedFeatures ≤ 1 := by
  cases cur
  · refine le_trans ?_ h
    have hle := currentCount_mapSet_le (featureId f fresh)
      { id := featureId f fresh, feature := f, sourceId := srcId, layerId := layId
        selected := true, isCurrentSelection := false } rfl s.selectedFeatures
    simpa [select] using hle
  · have hf := filter_mapSet_clearCurrent (featureId f fresh)
      { id := featureId f fresh, feature := f, sourceId := srcId, layerId := layId
        selected := true, isCurrentSelection := true } rfl s.selectedFeatures
    simp [select, currentCount, hf]

theorem calculateSelectionBounds_eq_none_iff (geo : GeoLib)
    (l : List (String × SelectedFeature)) :
    calculateSelectionBounds geo l = none ↔ l = [] := by
  cases l <;> simp [calculateSelectionBounds]

theorem mapSet_ne_nil {β : Type} (k : String) (v : β) (l : List (String × β)) :
    mapSet k v l ≠ [] := by
  cases l with
  | nil => simp [mapSet]
  | cons a l => by_cases h : a.1 = k <;> simp [mapSet, h]

/-! Concrete instantiation of the external geometry library and concrete
features, used to evaluate the selection manager on explicit inputs. -/

def trivGeo : GeoLib :=
  { bbox := fun _ => { minX := 0, minY := 0, maxX := 0, maxY := 0 }
    center := fun _ => { lon := 0, lat := 0 }
    area := fun _ => 0
    boundaryLength := fun _ => 0
    lineLength := fun _ => 0 }

def featA : Feature := { fid := some "a", geomType := GeomKind.polygon, coords := [(0, 0)] }

def featB : Feature := { fid := some "b", geomType := GeomKind.polygon, coords := [(1, 1)] }

/-! Claim C1. -/

/-- C1 counterexample: after select of feature A with setAsCurrent true
followed by select of feature B with setAsCurrent false, the selection set
is nonempty, the most recent select used setAsCurrent false, and yet
exactly one entry (feature A) still has isCurrentSelection true — the
claim predicts zero in this situation. -/
theorem C1_counterexample :
    ((selRun trivGeo [SelOp.sel featA "src" "lay" true "ga",
                      SelOp.sel featB "src" "lay" false "gb"]).selectedFeatures ≠ []) ∧
    currentCount (selRun trivGeo [SelOp.sel featA "src" "lay" true "ga",
                      SelOp.sel featB "src" "lay" false "gb"]).selectedFeatures = 1 := by
  constructor
  · decide
  · decide

/-- C1 amended: for every sequence of select, deselect and clearSelection
operations starting from the empty selection, at most one SelectedFeature
has isCurrentSelection true at any time, and select with setAsCurrent true
first clears the flag on every existing entry before inserting the new
entry, so that afterwards exactly the newly inserted entry is current; a
select with setAsCurrent false, however, leaves a previously current entry
current, so the count need not be zero after it (it is zero when the set
is empty). -/
theorem C1_amended (geo : GeoLib) (ops : List SelOp) :
    currentCount (selRun geo ops).selectedFeatures ≤ 1 ∧
    ∀ (s : SelState) (f : Feature) (srcId layId fresh : String),
      (select geo s f srcId layId true fresh).1.selectedFeatures.filter
          (fun p => p.2.isCurrentSelection) =
        [(featureId f fresh,
          { id := featureId f fresh, feature := f, sourceId := srcId, layerId := layId
            selected := true, isCurrentSelection := true })] := by
  constructor
  · refine foldlInv (fun s => currentCount s.selectedFeatures ≤ 1) (selStep geo) ?_ ops selInit
      (by simp [selInit, currentCount])
    intro s op h
    cases op with
    | sel f srcId layId cur fresh =>
      exact currentCount_select_le geo s f srcId layId cur fresh h
    | desel fid =>
      by_cases hm : keyMem fid s.selectedFeatures
      · refine le_trans ?_ h
        simpa [selStep, deselect, hm] using currentCount_eraseKey_le fid s.selectedFeatures
      · simpa [selStep, deselect, hm] using h
    | clear => simp [selStep, clearSelection, currentCount]
  · intro s f srcId layId fresh
    simpa [select] using filter_mapSet_clearCurrent (featureId f fresh)
      { id := featureId f fresh, feature := f, sourceId := srcId, layerId := layId
        selected := true, isCurrentSelection := true } rfl s.selectedFeatures

/-! Claim C2. -/

/-- C2: after every sequence of public mutations the cached selection bounds
are null exactly when the selection list is empty, and each mutating call
recomputes the bounds from the new selection set before returning: select
always recomputes, deselect recomputes exactly when something was removed,
and clearSelection sets the bounds to null together with the empty set. -/
theorem C2_bounds_null_iff_empty (geo : GeoLib) (ops : List SelOp) :
    ((selRun geo ops).selectionBounds = none ↔ (selRun geo ops).selectedFeatures = []) ∧
    (∀ (s : SelState) (f : Feature) (srcId layId fresh : String) (cur : Bool),
      (select geo s f srcId layId cur fresh).1.selectionBounds =
        calculateSelectionBounds geo (select geo s f srcId layId cur fresh).1.selectedFeatures) ∧
    (∀ (s : SelState) (fid : String),
      (deselect geo s fid).1.selectionBounds =
        if keyMem fid s.selectedFeatures = true then
          calculateSelectionBounds geo (deselect geo s fid).1.selectedFeatures
        else s.selectionBounds) ∧
    (∀ s : SelState,
      (clearSelection s).1.selectionBounds = none ∧ (clearSelection s).1.selectedFeatures = []) := by
  refine ⟨?_, ?_, ?_, ?_⟩
  · refine foldlInv (fun s => s.selectionBounds = none ↔ s.selectedFeatures = [])
      (selStep geo) ?_ ops selInit (by simp [selInit])
    intro s op h
    cases op with
    | sel f srcId layId cur fresh =>
      simp [selStep, select, calculateSelectionBounds_eq_none_iff]
    | desel fid =>
      by_cases hm : keyMem fid s.selectedFeatures
      · simp [selStep, deselect, hm, calculateSelectionBounds_eq_none_iff]
      · simpa [selStep, deselect, hm] using h
    | clear => simp [selStep, clearSelection]
  · intro s f srcId layId fresh cur
    simp [select]
  · intro s fid
    by_cases hm : keyMem fid s.selectedFeatures <;> simp [deselect, hm]
  · intro s
    exact ⟨rfl, rfl⟩

/-! Claim C9. -/

/-- C9: for each of the three mutating event types, emitEvent delivers to
the listeners of that specific type first, in registration order, and then
to every change listener with the same payload whose type field has been
overwritten to change; emitting a change event delivers to the change
listeners once and triggers no second change emission. -/
theorem C9_change_event_dispatch (ls : SelectionEventType → List Nat) (ev : SelectionEvent) :
    (emitEvent ls SelectionEventType.select ev =
      (ls SelectionEventType.select).map (fun l => (l, ev)) ++
        (ls SelectionEventType.change).map
          (fun l => (l, { ev with type := SelectionEventType.change }))) ∧
    (emitEvent ls SelectionEventType.deselect ev =
      (ls SelectionEventType.deselect).map (fun l => (l, ev)) ++
        (ls SelectionEventType.change).map
          (fun l => (l, { ev with type := SelectionEventType.change }))) ∧
    (emitEvent ls SelectionEventType.clear ev =
      (ls SelectionEventType.clear).map (fun l => (l, ev)) ++
        (ls SelectionEventType.change).map
          (fun l => (l, { ev with type := SelectionEventType.change }))) ∧
    (emitEvent ls SelectionEventType.change ev =
      (ls SelectionEventType.change).map (fun l => (l, ev))) := by
  refine ⟨?_, ?_, ?_, ?_⟩ <;> simp [emitEvent]

/-! Claim C10. -/

/-- C10: clearSelection on the empty selection store is total (never
throws), resets the state to the empty set with null bounds, and
unconditionally emits a clear event with empty selected list and null
bounds, which emitEvent delivers to the clear listeners and then, with the
type overwritten to change, to the change listeners. -/
theorem C10_clear_on_empty_emits (ls : SelectionEventType → List Nat) :
    clearSelection selInit =
      ({ selectedFeatures := [], selectionBounds := none },
       [{ type := SelectionEventType.clear, selected := [], bounds := none }]) ∧
    emitEvent ls SelectionEventType.clear
        { type := SelectionEventType.clear, selected := [], bounds := none } =
      (ls SelectionEventType.clear).map
          (fun l => (l, { type := SelectionEventType.clear, selected := [], bounds := none })) ++
        (ls SelectionEventType.change).map
          (fun l => (l, { type := SelectionEventType.change, selected := [], bounds := none })) := by
  constructor
  · rfl
  · simp [emitEvent]

/-! Concrete handle-manager states used to evaluate the drag state machine
on explicit inputs. -/

def handleOne : Handle := mkHandle "h1" HandleType.move HandleShape.circle { lon := 0, lat := 0 }

def handleTwo : Handle := mkHandle "h2" HandleType.move HandleShape.circle { lon := 1, lat := 0 }

/-- State reached by adding two draggable handles and pressing the pointer
down over the first one: a drag session on h1 exists. -/
def hmDraggingH1 : HMState :=
  (onMouseDown (addHandleHM (addHandleHM hmInit handleOne) handleTwo) (some "h1")).1

def lockXConstraints : Constraints :=
  { snapToGrid := false, lockAxis := some Axis.x, proportional := false }

def lockXHandle : Handle :=
  { id := "hx", type := HandleType.move, shape := HandleShape.circle
    position := { lon := 0, lat := 0 }, color := "#33ff57", size := 1, cursor := "move"
    visible := true, draggable := true, constraints := some lockXConstraints }

/-- State reached by adding a handle with the x axis locked and pressing the
pointer down over it. -/
def hmDraggingLockX : HMState :=
  (onMouseDown (addHandleHM hmInit lockXHandle) (some "hx")).1

def snapHandle : Handle := mkHandle "hs" HandleType.snap HandleShape.circle { lon := 0, lat := 0 }

/-- State reached by adding a snap-to-grid handle and pressing the pointer
down over it. -/
def hmDraggingSnap : HMState :=
  (onMouseDown (addHandleHM hmInit snapHandle) (some "hs")).1

/-! Claim C3. -/

/-- C3 counterexample: from a state with a live drag session on handle h1, a
second pointerdown over the draggable handle h2 is not ignored — the drag
session is replaced by a session on h2 and a second dragstart event is
emitted. -/
theorem C3_counterexample :
    (hmDraggingH1.dragState.map (fun d => d.handle.id) = some "h1") ∧
    ((onMouseDown hmDraggingH1 (some "h2")).1.dragState.map (fun d => d.handle.id) = some "h2") ∧
    ((onMouseDown hmDraggingH1 (some "h2")).2.map (fun e => e.type) = [HandleEventType.dragstart]) := by
  refine ⟨by decide, by decide, by decide⟩

/-- C3 amended: the single dragState slot keeps at most one handle in the
dragging state at any time, but a pointerdown resolving to a draggable
handle is never ignored: whether or not a drag session already exists, it
installs a fresh session for the hit handle (capturing that handle position
as initial and current position) and emits a dragstart event. -/
theorem C3_amended (st : HMState) (hid : String) (h : Handle)
    (hlook : lookupKey hid st.handles = some h) (hdrag : h.draggable = true) :
    (onMouseDown st (some hid)).1 =
      { st with activeHandle := some hid
                dragState := some { handle := h, initialPosition := h.position
                                    currentPosition := h.position } } ∧
    (onMouseDown st (some hid)).2 =
      [{ type := HandleEventType.dragstart, handle := h, position := h.position }] := by
  constructor <;> simp [onMouseDown, hlook, hdrag]

/-- C3 witness: the amended statement evaluated at the concrete two-handle
state with a live session on h1 and a pointerdown over h2. -/
theorem C3_witness :
    (onMouseDown hmDraggingH1 (some "h2")).1 =
      { hmDraggingH1 with
          activeHandle := some "h2"
          dragState := some { handle := handleTwo, initialPosition := handleTwo.position
                              currentPosition := handleTwo.position } } ∧
    (onMouseDown hmDraggingH1 (some "h2")).2 =
      [{ type := HandleEventType.dragstart, handle := handleTwo, position := handleTwo.position }] :=
  C3_amended hmDraggingH1 "h2" handleTwo (by decide) (by decide)

/-! Claim C4. -/

/-- C4 counterexample: dragging the handle whose constraints have the x axis
locked, from dragstart position (0, 0) to pointer position (7, 9),
changes its latitude from 0 to 9 — it is the longitude, not the
latitude, that is held at the dragstart value. -/
theorem C4_counterexample :
    ((runMoves hmDraggingLockX [{ lon := 7, lat := 9 }]).dragState.map
        (fun d => d.handle.position) = some { lon := 0, lat := 9 }) ∧
    ((runMoves hmDraggingLockX [{ lon := 7, lat := 9 }]).dragState.map
        (fun d => d.handle.position.lat) ≠ some 0) := by
  refine ⟨by decide, by decide⟩

theorem onMouseMove_lockx (st : HMState) (ds : DragState) (c : Constraints) (p : Position)
    (h1 : st.dragState = some ds) (h2 : ds.handle.constraints = some c)
    (h3 : c.lockAxis = some Axis.x) (h4 : c.snapToGrid = false) :
    (onMouseMove st p).1.dragState =
      some { handle := { ds.handle with position := { lon := ds.initialPosition.lon, lat := p.lat } }
             initialPosition := ds.initialPosition
             currentPosition := { lon := ds.initialPosition.lon, lat := p.lat } } := by
  simp [onMouseMove, h1, applyConstraints, h2, h3, h4]

/-- C4 amended: for a handle whose constraints have lockAxis x and no grid
snapping, the handle longitude — not the latitude — never changes from the
value captured at dragstart, across any sequence of drag events; the
latitude is free to follow the pointer. -/
theorem C4_amended (ps : List Position) :
    ∀ (st : HMState) (ds : DragState) (c : Constraints),
      st.dragState = some ds →
      ds.handle.constraints = some c →
      c.lockAxis = some Axis.x →
      c.snapToGrid = false →
      ds.handle.position.lon = ds.initialPosition.lon →
      ∃ ds2 : DragState,
        (runMoves st ps).dragState = some ds2 ∧
        ds2.initialPosition = ds.initialPosition ∧
        ds2.handle.constraints = some c ∧
        ds2.handle.position.lon = ds.initialPosition.lon := by
  induction ps with
  | nil =>
    intro st ds c h1 h2 _h3 _h4 h5
    exact ⟨ds, by simpa [runMoves] using h1, rfl, h2, h5⟩
  | cons p ps ih =>
    intro st ds c h1 h2 h3 h4 _h5
    have hstep := onMouseMove_lockx st ds c p h1 h2 h3 h4
    have hrun : runMoves st (p :: ps) = runMoves (onMouseMove st p).1 ps := by
      simp [runMoves]
    rw [hrun]
    exact ih (onMouseMove st p).1
      { handle := { ds.handle with position := { lon := ds.initialPosition.lon, lat := p.lat } }
        initialPosition := ds.initialPosition
        currentPosition := { lon := ds.initialPosition.lon, lat := p.lat } }
      c hstep h2 h3 h4 rfl

/-- C4 witness: the amended statement evaluated at the concrete locked-axis
drag session with one drag event at pointer position (3, 4). -/
theorem C4_witness :
    ∃ ds2 : DragState,
      (runMoves hmDraggingLockX [{ lon := 3, lat := 4 }]).dragState = some ds2 ∧
      ds2.initialPosition = { lon := 0, lat := 0 } ∧
      ds2.handle.constraints = some lockXConstraints ∧
      ds2.handle.position.lon = (0 : ℚ) :=
  C4_amended [{ lon := 3, lat := 4 }] hmDraggingLockX
    { handle := lockXHandle, initialPosition := { lon := 0, lat := 0 }
      currentPosition := { lon := 0, lat := 0 } }
    lockXConstraints (by decide) rfl rfl rfl rfl

/-! Claim C7. -/

/-- Longitude entering the snap step: the initial longitude when the x axis
is locked, otherwise the raw pointer longitude. -/
def lonAfterLock (c : Constraints) (ini pos : Position) : ℚ :=
  match c.lockAxis with
  | some Axis.x => ini.lon
  | _ => pos.lon

/-- Latitude entering the snap step: the initial latitude when the y axis is
locked, otherwise the raw pointer latitude. -/
def latAfterLock (c : Constraints) (ini pos : Position) : ℚ :=
  match c.lockAxis with
  | some Axis.y => ini.lat
  | _ => pos.lat

/-- C7: for a handle with snapToGrid set, each drag event leaves both
coordinates of the handle position equal to
Math.round(raw / 0.001) * 0.001 of the value produced by the lockAxis step
— so snapping is applied after the axis lock and also to the locked axis —
and both coordinates are exact integer multiples of the grid quantum. -/
theorem C7_snap_after_lock (st : HMState) (ds : DragState) (c : Constraints) (pos : Position)
    (h1 : st.dragState = some ds) (h2 : ds.handle.constraints = some c)
    (h3 : c.snapToGrid = true) :
    ((onMouseMove st pos).1.dragState =
      some { handle := { ds.handle with position :=
               { lon := snapQ (lonAfterLock c ds.initialPosition pos)
                 lat := snapQ (latAfterLock c ds.initialPosition pos) } }
             initialPosition := ds.initialPosition
             currentPosition :=
               { lon := snapQ (lonAfterLock c ds.initialPosition pos)
                 lat := snapQ (latAfterLock c ds.initialPosition pos) } }) ∧
    (∃ m : ℤ, snapQ (lonAfterLock c ds.initialPosition pos) = (m : ℚ) * gridSize) ∧
    (∃ n : ℤ, snapQ (latAfterLock c ds.initialPosition pos) = (n : ℚ) * gridSize) := by
  refine ⟨?_, ⟨jsRound (lonAfterLock c ds.initialPosition pos / gridSize), rfl⟩,
          ⟨jsRound (latAfterLock c ds.initialPosition pos / gridSize), rfl⟩⟩
  rcases c with ⟨csnap, clock, cprop⟩
  cases clock with
  | none =>
    simp [onMouseMove, h1, applyConstraints, h2, lonAfterLock, latAfterLock] at h3 ⊢
    simp [h3]
  | some ax =>
    cases ax <;>
      · simp [onMouseMove, h1, applyConstraints, h2, lonAfterLock, latAfterLock] at h3 ⊢
        simp [h3]

/-- C7 witness: the snap statement evaluated at the concrete snap-handle
drag session with one drag event at pointer position (10007/10000, 1/3). -/
theorem C7_witness :
    ((onMouseMove hmDraggingSnap { lon := 10007/10000, lat := 1/3 }).1.dragState =
      some { handle := { snapHandle with position :=
               { lon := snapQ (lonAfterLock (constraintsForType HandleType.snap)
                          { lon := 0, lat := 0 } { lon := 10007/10000, lat := 1/3 })
                 lat := snapQ (latAfterLock (constraintsForType HandleType.snap)
                          { lon := 0, lat := 0 } { lon := 10007/10000, lat := 1/3 }) } }
             initialPosition := { lon := 0, lat := 0 }
             currentPosition :=
               { lon := snapQ (lonAfterLock (constraintsForType HandleType.snap)
                          { lon := 0, lat := 0 } { lon := 10007/10000, lat := 1/3 })
                 lat := snapQ (latAfterLock (constraintsForType HandleType.snap)
                          { lon := 0, lat := 0 } { lon := 10007/10000, lat := 1/3 }) } }) ∧
    (∃ m : ℤ, snapQ (lonAfterLock (constraintsForType HandleType.snap)
        { lon := 0, lat := 0 } { lon := 10007/10000, lat := 1/3 }) = (m : ℚ) * gridSize) ∧
    (∃ n : ℤ, snapQ (latAfterLock (constraintsForType HandleType.snap)
        { lon := 0, lat := 0 } { lon := 10007/10000, lat := 1/3 }) = (n : ℚ) * gridSize) :=
  C7_snap_after_lock hmDraggingSnap
    { handle := snapHandle, initialPosition := { lon := 0, lat := 0 }
      currentPosition := { lon := 0, lat := 0 } }
    (constraintsForType HandleType.snap) { lon := 10007/10000, lat := 1/3 }
    (by decide) rfl rfl

/-! Lookup lemmas for the association-list map model. -/

theorem lookup_mapSet_self {β : Type} (k : String) (v : β) (l : List (String × β)) :
    lookupKey k (mapSet k v l) = some v := by
  induction l with
  | nil => simp [mapSet, lookupKey]
  | cons a l ih =>
    by_cases hk : a.1 = k
    · simp [mapSet, hk, lookupKey]
    · simpa [mapSet, hk, lookupKey] using ih

theorem lookup_mapSet_ne {β : Type} (k k₁ : String) (v : β) (l : List (String × β))
    (h : k₁ ≠ k) : lookupKey k₁ (mapSet k v l) = lookupKey k₁ l := by
  have hne : k ≠ k₁ := fun he => h he.symm
  induction l with
  | nil => simp [mapSet, lookupKey, hne]
  | cons a l ih =>
    by_cases hk : a.1 = k
    · subst hk
      simp [mapSet, lookupKey, hne]
    · simp [mapSet, hk, lookupKey, ih]

theorem lookup_mapUpdate_self {β : Type} (k : String) (v w : β) (l : List (String × β))
    (h : lookupKey k l = some w) : lookupKey k (mapUpdate k v l) = some v := by
  simp [mapUpdate, h, lookup_mapSet_self]

theorem lookup_mapUpdate_ne {β : Type} (k k₁ : String) (v : β) (l : List (String × β))
    (h : k₁ ≠ k) : lookupKey k₁ (mapUpdate k v l) = lookupKey k₁ l := by
  unfold mapUpdate
  cases lookupKey k l with
  | none => rfl
  | some w => exact lookup_mapSet_ne k k₁ v l h

/-! Claim C5. -/

/-- Registered tool used for the concrete tool-manager runs. -/
def toolAData : ToolData := { id := "A", state := ToolState.inactive, handles := [] }

/-- State reached by registering tool A and activating it. -/
def tmActiveA : TMState := (tmActivateTool (tmRegister tmInit toolAData) "A").1

/-- C5 counterexample: with tool A registered and active, calling
ToolManager.activateTool with the id of A again is not silently ignored:
it emits a deactivate event and then an activate event for A, because the
manager deactivates the current tool before activating the requested one
even when they are the same tool. -/
theorem C5_counterexample :
    tmActiveA.activeTool = some "A" ∧
    (tmActivateTool tmActiveA "A").2.2 =
      [{ kind := ToolEventKind.deactivate, toolId := "A", state := ToolState.inactive },
       { kind := ToolEventKind.activate, toolId := "A", state := ToolState.active }] := by
  refine ⟨by decide, by decide⟩

/-- C5 amended: calling BaseTool.activate directly on a tool that is not
inactive is a guarded no-op, but ToolManager.activateTool with the id of
the currently active tool is not a no-op: it deactivates that tool
(clearing its handles and emitting a deactivate event) and then reactivates
it (emitting an activate event); afterwards the tool is active again and
still occupies the active slot. -/
theorem C5_amended (t : ToolData) (s : TMState) (aid : String) (ta : ToolData)
    (ht : t.state = ToolState.active)
    (hslot : s.activeTool = some aid)
    (hta : lookupKey aid s.tools = some ta)
    (hsa : ta.state = ToolState.active) :
    toolActivate t = (t, []) ∧
    tmActivateTool s aid =
      ({ tools := mapUpdate aid { ta with handles := [], state := ToolState.active }
                    (mapUpdate aid { ta with handles := [], state := ToolState.inactive } s.tools)
         activeTool := some aid },
       some aid,
       [{ kind := ToolEventKind.deactivate, toolId := ta.id, state := ToolState.inactive },
        { kind := ToolEventKind.activate, toolId := ta.id, state := ToolState.active }]) := by
  constructor
  · simp [toolActivate, ht]
  · have hlook2 : lookupKey aid
        (mapUpdate aid { ta with handles := [], state := ToolState.inactive } s.tools) =
        some { ta with handles := [], state := ToolState.inactive } :=
      lookup_mapUpdate_self aid _ ta s.tools hta
    simp [tmActivateTool, hta, hslot, toolDeactivate, hsa, hlook2, toolActivate]

/-- Tool data of tool A once active and owning one handle. -/
def toolAActive : ToolData := { id := "A", state := ToolState.active, handles := ["hA"] }

/-- Tool data for the second registered tool of the concrete runs. -/
def toolBData : ToolData := { id := "B", state := ToolState.inactive, handles := [] }

/-- Concrete manager state with tools A (active, owning one handle) and B
(inactive) registered. -/
def tmTwoTools : TMState :=
  { tools := [("A", toolAActive), ("B", toolBData)], activeTool := some "A" }

/-- C5 witness: the amended statement evaluated at the concrete manager
state in which tool A is active and owns a handle. -/
theorem C5_witness :
    toolActivate toolAActive = (toolAActive, []) ∧
    tmActivateTool tmTwoTools "A" =
      ({ tools := mapUpdate "A" { toolAActive with handles := [], state := ToolState.active }
                    (mapUpdate "A" { toolAActive with handles := [], state := ToolState.inactive }
                      tmTwoTools.tools)
         activeTool := some "A" },
       some "A",
       [{ kind := ToolEventKind.deactivate, toolId := toolAActive.id, state := ToolState.inactive },
        { kind := ToolEventKind.activate, toolId := toolAActive.id, state := ToolState.active }]) :=
  C5_amended toolAActive tmTwoTools "A" toolAActive rfl rfl (by decide) rfl

/-! Claim C6. -/

/-- C6: with distinct tools A (active) and B (inactive) registered,
activateTool with the id of B first deactivates A — emitting exactly one
deactivate event for A — and then activates B, emitting its activate
event; afterwards the active slot holds B, B is active and A is inactive
with its handles cleared. An unknown id returns null and changes nothing. -/
theorem C6_switch_tools (s : TMState) (aid bid badId : String) (ta tb : ToolData)
    (hslot : s.activeTool = some aid)
    (hta : lookupKey aid s.tools = some ta)
    (htb : lookupKey bid s.tools = some tb)
    (hbad : lookupKey badId s.tools = none)
    (hne : bid ≠ aid)
    (hsa : ta.state = ToolState.active)
    (hsb : tb.state = ToolState.inactive) :
    tmActivateTool s bid =
      ({ tools := mapUpdate bid { tb with state := ToolState.active }
                    (mapUpdate aid { ta with handles := [], state := ToolState.inactive } s.tools)
         activeTool := some bid },
       some bid,
       [{ kind := ToolEventKind.deactivate, toolId := ta.id, state := ToolState.inactive },
        { kind := ToolEventKind.activate, toolId := tb.id, state := ToolState.active }]) ∧
    tmActivateTool s badId = (s, none, []) := by
  constructor
  · have hlook2 : lookupKey bid
        (mapUpdate aid { ta with handles := [], state := ToolState.inactive } s.tools) =
        some tb := by
      rw [lookup_mapUpdate_ne aid bid _ s.tools hne, htb]
    simp [tmActivateTool, htb, hslot, hta, toolDeactivate, hsa, hlook2, toolActivate, hsb]
  · simp [tmActivateTool, hbad]

/-- C6 witness: the switch statement evaluated at the concrete manager state
with A active, B inactive, and the unregistered id C. -/
theorem C6_witness :
    tmActivateTool tmTwoTools "B" =
      ({ tools := mapUpdate "B" { toolBData with state := ToolState.active }
                    (mapUpdate "A" { toolAActive with handles := [], state := ToolState.inactive }
                      tmTwoTools.tools)
         activeTool := some "B" },
       some "B",
       [{ kind := ToolEventKind.deactivate, toolId := toolAActive.id, state := ToolState.inactive },
        { kind := ToolEventKind.activate, toolId := toolBData.id, state := ToolState.active }]) ∧
    tmActivateTool tmTwoTools "C" = (tmTwoTools, none, []) :=
  C6_switch_tools tmTwoTools "A" "B" "C" toolAActive toolBData rfl rfl (by decide) (by decide)
    (by decide) rfl rfl

/-! Claim C8. -/

/-- C8: regenerating handles from non-null selection bounds creates exactly
four corner handles — square shape, resize kind — whose positions are the
corners (minX, maxY), (maxX, maxY), (maxX, minY), (minX, minY) of the
bbox, plus four midpoint handles — circle shape, resize kind — at the edge
midpoints; reading the corner positions back reconstructs the bbox
exactly. -/
theorem C8_handles_round_trip (gen : Nat → String) (b : SelectionBounds) :
    ((createHandlesForSelection gen (some b)).cornerHandles.length = 4) ∧
    ((createHandlesForSelection gen (some b)).cornerHandles.map (fun h => h.position) =
      [{ lon := b.bbox.minX, lat := b.bbox.maxY }, { lon := b.bbox.maxX, lat := b.bbox.maxY },
       { lon := b.bbox.maxX, lat := b.bbox.minY }, { lon := b.bbox.minX, lat := b.bbox.minY }]) ∧
    ((createHandlesForSelection gen (some b)).cornerHandles.map (fun h => h.shape) =
      [HandleShape.square, HandleShape.square, HandleShape.square, HandleShape.square]) ∧
    ((createHandlesForSelection gen (some b)).cornerHandles.map (fun h => h.type) =
      [HandleType.resize, HandleType.resize, HandleType.resize, HandleType.resize]) ∧
    ((createHandlesForSelection gen (some b)).edgeHandles.length = 4) ∧
    ((createHandlesForSelection gen (some b)).edgeHandles.map (fun h => h.position) =
      [{ lon := (b.bbox.minX + b.bbox.maxX) / 2, lat := b.bbox.maxY },
       { lon := b.bbox.maxX, lat := (b.bbox.minY + b.bbox.maxY) / 2 },
       { lon := (b.bbox.minX + b.bbox.maxX) / 2, lat := b.bbox.minY },
       { lon := b.bbox.minX, lat := (b.bbox.minY + b.bbox.maxY) / 2 }]) ∧
    ((createHandlesForSelection gen (some b)).edgeHandles.map (fun h => h.shape) =
      [HandleShape.circle, HandleShape.circle, HandleShape.circle, HandleShape.circle]) ∧
    ((createHandlesForSelection gen (some b)).edgeHandles.map (fun h => h.type) =
      [HandleType.resize, HandleType.resize, HandleType.resize, HandleType.resize]) ∧
    specReadCornersBbox (createHandlesForSelection gen (some b)).cornerHandles = some b.bbox := by
  exact ⟨rfl, rfl, rfl, rfl, rfl, rfl, rfl, rfl, rfl⟩

end MaplibreSpec
